import Mathlib

/-!
Verification development for the DubStudio dubbing pipeline frontend and its
gateway contract.  Definitions are shallow embeddings of the React frontend
code under `frontend/src` (components `JobList`, `VideoPreview`,
`ProgressOverlay`, `ControlPanel`, `Timeline`, `Header`, the `useApi` hook and
`App`).  Where a definition embeds backend behaviour that only exists as a
contract, its doc comment says so explicitly.
-/

namespace DubStudio

/-- A transcript segment as serialized by the gateway and consumed by the
frontend: start time, end time (seconds) and translated text. -/
structure Segment where
  start : ℚ
  «end» : ℚ
  text : String
deriving DecidableEq

/-- A job in the serialized JSON shape the frontend consumes
(fields read by `JobList`, `ControlPanel`, `Timeline`, `VideoPreview`,
`ProgressOverlay`, `App`). -/
structure Job where
  job_id : String
  filename : String
  file_size_mb : ℚ
  status : String
  current_step : String
  progress : ℚ
  segments : List Segment
  error : Option String
deriving DecidableEq

/-- The stage order hard-coded in `ProgressOverlay.jsx`
(`STEP_ORDER`, listing `asr`, `tts`, `wav2lip`, `done`). -/
def STEP_ORDER : List String := ["asr", "tts", "wav2lip", "done"]

/-- JavaScript `Array.prototype.indexOf` on a list of strings: the index of
the first occurrence, and `-1` when the element is absent. -/
def jsIndexOf (l : List String) (s : String) : ℤ :=
  match l.findIdx? (fun x => x == s) with
  | some i => (i : ℤ)
  | none => -1

/-- `Timeline.jsx`: total duration is 60 for an empty segment list, otherwise
`Math.max(...segments.map(s => s.end), 30)`. -/
def totalDuration (segments : List Segment) : ℚ :=
  if segments = [] then 60
  else (segments.map (fun s => s.«end»)).foldl max 30

/-- The largest `end` time of a non-empty segment list, written with its head
made explicit. -/
def largestEnd (s : Segment) (rest : List Segment) : ℚ :=
  (rest.map (fun x => x.«end»)).foldl max s.«end»

theorem foldl_max_hoist (l : List ℚ) (a b : ℚ) :
    l.foldl max (max a b) = max (l.foldl max a) b := by
  induction l generalizing a with
  | nil => rfl
  | cons c l ih =>
      simp only [List.foldl_cons]
      rw [sup_right_comm a b c, ih]

/-- C10: the timeline total duration is a total function of the segment
list: it is 60 on the empty list, equals `max (largest end) 30` on a
non-empty list, and is always at least 30. -/
theorem timeline_totalDuration_spec :
    totalDuration [] = 60 ∧
    (∀ (s : Segment) (rest : List Segment),
      totalDuration (s :: rest) = max (largestEnd s rest) 30) ∧
    (∀ segments : List Segment, 30 ≤ totalDuration segments) := by
  refine ⟨rfl, fun s rest => ?_, fun segments => ?_⟩
  · simp only [totalDuration, largestEnd, List.map_cons, List.foldl_cons,
      if_neg (List.cons_ne_nil s rest)]
    rw [max_comm (30 : ℚ) s.«end», foldl_max_hoist]
  · cases segments with
    | nil => norm_num [totalDuration]
    | cons s rest =>
        simp only [totalDuration, List.map_cons, List.foldl_cons,
          if_neg (List.cons_ne_nil s rest)]
        rw [max_comm (30 : ℚ) s.«end», foldl_max_hoist]
        exact le_max_right _ _

/-! ## Pipeline stages (C1, C7) -/

/-- The processing stages of the pipeline as a tagged variant.  Modelled from
the spec: the stage progression of the pipeline runner is backend code that is not
under `src/`; the stage identifiers are taken from the frontend
`STEP_ORDER` in `ProgressOverlay.jsx`. -/
inductive Stage where
  | asr
  | tts
  | wav2lip
  | done
deriving DecidableEq

/-- The string identifier each stage is serialized as (`current_step`),
matching `STEP_ORDER` in `ProgressOverlay.jsx`. -/
def stageId : Stage → String
  | .asr => "asr"
  | .tts => "tts"
  | .wav2lip => "wav2lip"
  | .done => "done"

/-- Modelled from the spec: the stage advance relation of the pipeline runner
(spec §4.4, with stage identifiers from `STEP_ORDER` in the code): the runner
is backend code not under `src/`.  `none` means the stage is terminal. -/
def advanceStage : Stage → Option Stage
  | .asr => some .tts
  | .tts => some .wav2lip
  | .wav2lip => some .done
  | .done => none

instance : Fintype Stage :=
  ⟨⟨{Stage.asr, Stage.tts, Stage.wav2lip, Stage.done}, by decide⟩,
    fun s => by cases s <;> decide⟩

/-- C1 counterexample: the stage vocabulary of the code `STEP_ORDER` is not
contained in the claimed value set `asr, tts, lipsync, done`: the third
stage identifier is `wav2lip`. -/
theorem step_order_not_lipsync :
    ¬ (∀ s ∈ STEP_ORDER, s ∈ ["asr", "tts", "lipsync", "done"]) := by
  decide

/-- C1 (amended): every stage identifier is one of `asr, tts, wav2lip, done`
(`STEP_ORDER` from the code), and each advance of the stage machine moves to the
identifier at exactly the next index of `STEP_ORDER` — never skipping and
never regressing. -/
theorem stage_progression_follows_step_order :
    (∀ st : Stage, stageId st ∈ STEP_ORDER) ∧
    (∀ st st' : Stage, advanceStage st = some st' →
      jsIndexOf STEP_ORDER (stageId st') = jsIndexOf STEP_ORDER (stageId st) + 1) := by
  constructor
  · intro st; cases st <;> decide
  · intro st st' h
    cases st <;> cases st' <;> first | rfl | exact absurd h (by decide)

/-- Witness for C1 (amended): the first advance, from `asr`, lands on `tts`,
one index further in `STEP_ORDER`. -/
theorem stage_progression_follows_step_order_witness :
    stageId Stage.asr ∈ STEP_ORDER ∧
    jsIndexOf STEP_ORDER (stageId Stage.tts) =
      jsIndexOf STEP_ORDER (stageId Stage.asr) + 1 :=
  ⟨stage_progression_follows_step_order.1 Stage.asr,
    stage_progression_follows_step_order.2 Stage.asr Stage.tts rfl⟩

/-! ## Download availability (C6) -/

/-- `JobList.jsx`: the action row is rendered when
the job status is `completed` or `failed`. -/
def showActionRow (j : Job) : Bool :=
  j.status == "completed" || j.status == "failed"

/-- `JobList.jsx`: inside the action row, the download link is rendered only
when the job status is `completed`. -/
def showDownload (j : Job) : Bool :=
  showActionRow j && j.status == "completed"

/-- `VideoPreview.jsx`: `hasOutput`, true exactly when the job status is `completed`, gates
the Dubbed and Compare buttons, whose players use the download URL. -/
def hasOutput (j : Job) : Bool :=
  j.status == "completed"

/-- C6: the download action is offered if and only if the status of the job is
`completed`, in both `JobList` and `VideoPreview`; in particular it is never
offered for `queued`, `processing` or `failed` jobs. -/
theorem download_iff_completed :
    ∀ j : Job, (showDownload j = true ↔ j.status = "completed") ∧
      (hasOutput j = true ↔ j.status = "completed") ∧
      showDownload j = hasOutput j := by
  intro j
  by_cases h : j.status = "completed" <;>
    simp [showDownload, showActionRow, hasOutput, h]

/-! ## Progress attribution (C7) -/

/-- A progress event carrying stage, progress and message, as streamed over the
per-job channel. -/
structure ProgressEvent where
  stage : String
  progress : ℚ
  message : String
deriving DecidableEq

/-- `ProgressOverlay.jsx`: the stage-entry fallback percent computed from the
index of `current_step` in `STEP_ORDER`:
`currentStepIndex >= 0 ? (currentStepIndex / 3) * 100 : 0`. -/
def fallbackPercent (currentStepIndex : ℤ) : ℚ :=
  if 0 ≤ currentStepIndex then ((currentStepIndex : ℚ) / 3) * 100 else 0

/-- `ProgressOverlay.jsx`: the displayed percent
is the live event percent unless that is absent or `0` (the JavaScript
or-operator treats `0` as falsy), and the stage-entry fallback otherwise. -/
def progressOverlayPercent (j : Job) (p : Option ProgressEvent) : ℚ :=
  match p with
  | some e =>
      if e.progress = 0 then fallbackPercent (jsIndexOf STEP_ORDER j.current_step)
      else e.progress
  | none => fallbackPercent (jsIndexOf STEP_ORDER j.current_step)

/-- The lower bound of stage band `i` as the spec writes the bands:
0–33 for asr, 33–66 for tts, 66–100 for lipsync. -/
def bandLo (i : ℕ) : ℚ := [(0 : ℚ), 33, 66].getD i 0

/-- The upper bound of stage band `i` as the spec writes the bands. -/
def bandHi (i : ℕ) : ℚ := [(33 : ℚ), 66, 100].getD i 100

/-- Modelled from the spec: the percent attribution of the runner (backend
code not under `src/`): the finer-grained fraction of a stage is scaled
within the band of that stage. -/
def scaledPercent (i : ℕ) (frac : ℚ) : ℚ :=
  bandLo i + frac * (bandHi i - bandLo i)

/-- C7 counterexample: at the tts stage (index 1 of `STEP_ORDER`) the
stage-entry fallback of the code is `(1/3)*100 = 100/3`, which is not the
lower bound 33 of the band. -/
theorem fallbackPercent_tts_not_bandLo :
    jsIndexOf STEP_ORDER "tts" = 1 ∧ bandLo 1 = 33 ∧
      fallbackPercent 1 = 100 / 3 ∧ fallbackPercent 1 ≠ bandLo 1 := by
  refine ⟨by decide, by norm_num [bandLo], ?_, ?_⟩ <;>
    norm_num [fallbackPercent, bandLo]

/-- C7 (amended): the three stages sit at indices 0, 1, 2 of `STEP_ORDER`;
percent scaled within the band of a stage stays inside that band; and the
stage-entry fallback equals `i·100/3`, which lies inside the band of its
stage but equals the lower bound of the band only for asr (index 0). -/
theorem progress_percent_bands (i : ℕ) (hi : i < 3) (frac : ℚ)
    (h0 : 0 ≤ frac) (h1 : frac ≤ 1) :
    jsIndexOf STEP_ORDER "asr" = 0 ∧ jsIndexOf STEP_ORDER "tts" = 1 ∧
      jsIndexOf STEP_ORDER "wav2lip" = 2 ∧
      fallbackPercent i = (i * 100) / 3 ∧
      bandLo i ≤ fallbackPercent i ∧ fallbackPercent i ≤ bandHi i ∧
      (fallbackPercent i = bandLo i ↔ i = 0) ∧
      bandLo i ≤ scaledPercent i frac ∧ scaledPercent i frac ≤ bandHi i := by
  refine ⟨by decide, by decide, by decide, ?_, ?_, ?_, ?_, ?_, ?_⟩ <;>
    interval_cases i <;>
    simp only [fallbackPercent, bandLo, bandHi, scaledPercent] <;>
    norm_num <;> nlinarith

/-- Witness for C7 (amended): the tts stage at index 1 with a half-done
stage fraction. -/
theorem progress_percent_bands_witness :
    fallbackPercent 1 = (1 * 100) / 3 ∧
      bandLo 1 ≤ scaledPercent 1 (1 / 2) ∧ scaledPercent 1 (1 / 2) ≤ bandHi 1 := by
  have h := progress_percent_bands 1 (by norm_num) (1 / 2) (by norm_num) (by norm_num)
  exact ⟨by exact_mod_cast h.2.2.2.1, h.2.2.2.2.2.2.2.1, h.2.2.2.2.2.2.2.2⟩

/-! ## WebSocket progress application (C4) -/

/-- `useApi.js`, `connectWebSocket`: on each message the job list is updated
by `prev.map(j => j.job_id === jobId ? spread of j and data : j)`.  The merge
of the event payload into the matching record is abstracted as an arbitrary
update function, so the frame property holds for every payload shape. -/
def applyProgress (jobId : String) (update : Job → Job) (jobs : List Job) :
    List Job :=
  jobs.map (fun j => if j.job_id == jobId then update j else j)

/-- C4: applying a progress event for `jobId` preserves the length of the job
list, leaves every record whose `job_id` differs from `jobId` unchanged at
its position, and rewrites a matching record with exactly the merge of the
event payload. -/
theorem applyProgress_frame (jobId : String) (update : Job → Job)
    (jobs : List Job) (i : ℕ) (j : Job) (hget : jobs[i]? = some j) :
    (applyProgress jobId update jobs).length = jobs.length ∧
      (j.job_id ≠ jobId → (applyProgress jobId update jobs)[i]? = some j) ∧
      (j.job_id = jobId → (applyProgress jobId update jobs)[i]? = some (update j)) := by
  refine ⟨List.length_map _ _, fun hne => ?_, fun heq => ?_⟩
  · simp [applyProgress, List.getElem?_map, hget, hne]
  · simp [applyProgress, List.getElem?_map, hget, heq]

/-- Witness for C4: a two-job list; an event for job `a` leaves job `b`
untouched and rewrites job `a` by the merge. -/
theorem applyProgress_frame_witness :
    (Job.mk "b" "b.mp4" 1 "queued" "asr" 0 [] none).job_id ≠ "a" ∧
      (applyProgress "a" (fun j => { j with progress := 50 })
        [Job.mk "a" "a.mp4" 1 "processing" "tts" 40 [] none,
         Job.mk "b" "b.mp4" 1 "queued" "asr" 0 [] none])[1]? =
        some (Job.mk "b" "b.mp4" 1 "queued" "asr" 0 [] none) :=
  ⟨by decide,
    (applyProgress_frame "a" (fun j => { j with progress := 50 })
      [Job.mk "a" "a.mp4" 1 "processing" "tts" 40 [] none,
       Job.mk "b" "b.mp4" 1 "queued" "asr" 0 [] none] 1
      (Job.mk "b" "b.mp4" 1 "queued" "asr" 0 [] none) rfl).2.1 (by decide)⟩

/-! ## Job deletion (C5) -/

/-- `useApi.js`, `deleteJob`: after the DELETE request the client job list is
replaced by `prev.filter(j => j.job_id !== jobId)`; the request itself is
wrapped in try/catch, so the operation never throws to its caller. -/
def deleteJobLocal (jobId : String) (jobs : List Job) : List Job :=
  jobs.filter (fun j => j.job_id != jobId)

/-- C5: deleting is total on every id and idempotent; afterwards no record
with the deleted id remains; and deleting an id that is absent (in
particular, a nonexistent job) returns the list unchanged rather than an
error. -/
theorem deleteJob_idempotent_total (jobId : String) (jobs : List Job) :
    deleteJobLocal jobId (deleteJobLocal jobId jobs) = deleteJobLocal jobId jobs ∧
      (∀ j ∈ deleteJobLocal jobId jobs, j.job_id ≠ jobId) ∧
      ((∀ j ∈ jobs, j.job_id ≠ jobId) → deleteJobLocal jobId jobs = jobs) := by
  refine ⟨?_, fun j hj => ?_, fun habs => ?_⟩
  · simp [deleteJobLocal, List.filter_filter]
  · have := (List.mem_filter.mp hj).2
    simpa using this
  · exact List.filter_eq_self.mpr fun j hj => by simpa using habs j hj

/-- Witness for C5: deleting the id `"zzz"`, which no job carries, leaves a
concrete one-job list unchanged, and the id of the surviving record differs from
the deleted one. -/
theorem deleteJob_idempotent_total_witness :
    deleteJobLocal "zzz" [Job.mk "a" "a.mp4" 1 "queued" "asr" 0 [] none] =
      [Job.mk "a" "a.mp4" 1 "queued" "asr" 0 [] none] ∧
      (Job.mk "a" "a.mp4" 1 "queued" "asr" 0 [] none).job_id ≠ "zzz" :=
  ⟨(deleteJob_idempotent_total "zzz"
      [Job.mk "a" "a.mp4" 1 "queued" "asr" 0 [] none]).2.2
      (by intro j hj; fin_cases hj; decide),
    (deleteJob_idempotent_total "zzz"
      [Job.mk "a" "a.mp4" 1 "queued" "asr" 0 [] none]).2.1
      (Job.mk "a" "a.mp4" 1 "queued" "asr" 0 [] none) (by decide)⟩

/-! ## Failed-job display (C8) -/

/-- `ControlPanel.jsx`: the error box renders only when `activeJob.error` is
truthy, and its text content is the literal `⚠ ` marker followed by the
stored error string. -/
def errorBox (j : Job) : Option String :=
  match j.error with
  | some e => if e = "" then none else some ("⚠ " ++ e)
  | none => none

/-- `JobList.jsx`: one card is rendered per job of the list, with no
filtering by status; this is the list of rendered card ids. -/
def jobCardIds (jobs : List Job) : List String :=
  jobs.map (fun j => j.job_id)

/-- `ControlPanel.jsx`: the transcript section shows the segments of the job
whenever `segments.length > 0`, regardless of status. -/
def transcriptShown (j : Job) : Option (List Segment) :=
  if j.segments.length > 0 then some j.segments else none

/-- C8 counterexample: for a failed job whose stored error is `boom`, the
rendered error text is `⚠ boom`, not `boom` — the rendered text is not
character-for-character equal to the stored reason. -/
theorem errorBox_not_verbatim :
    errorBox (Job.mk "a" "a.mp4" 1 "failed" "asr" 10 [] (some "boom")) =
        some ("⚠ " ++ "boom") ∧
      errorBox (Job.mk "a" "a.mp4" 1 "failed" "asr" 10 [] (some "boom")) ≠
        some "boom" := by
  constructor <;> decide

/-- C8 (amended): for every failed job with a non-empty stored error, the
rendered error text is the fixed `⚠ ` marker followed by the stored reason
character for character; the card of the failed job stays in the rendered job
list, and its last good segments remain shown whenever non-empty, with no
status condition. -/
theorem failed_job_display (jobs : List Job) (j : Job) (e : String)
    (hmem : j ∈ jobs) (_hfail : j.status = "failed") (herr : j.error = some e)
    (hne : e ≠ "") (hsegs : j.segments ≠ []) :
    errorBox j = some ("⚠ " ++ e) ∧
      j.job_id ∈ jobCardIds jobs ∧
      transcriptShown j = some j.segments := by
  refine ⟨?_, List.mem_map.mpr ⟨j, hmem, rfl⟩, ?_⟩
  · simp [errorBox, herr, hne]
  · have : 0 < j.segments.length := List.length_pos.mpr hsegs
    simp [transcriptShown, this]

/-- Witness for C8 (amended): a concrete failed job with one retained
segment and error `asr_failed: boom`. -/
theorem failed_job_display_witness :
    errorBox (Job.mk "a" "a.mp4" 1 "failed" "tts" 40
        [Segment.mk 0 2 "hello"] (some "asr_failed: boom")) =
      some ("⚠ " ++ "asr_failed: boom") ∧
      "a" ∈ jobCardIds [Job.mk "a" "a.mp4" 1 "failed" "tts" 40
        [Segment.mk 0 2 "hello"] (some "asr_failed: boom")] ∧
      transcriptShown (Job.mk "a" "a.mp4" 1 "failed" "tts" 40
        [Segment.mk 0 2 "hello"] (some "asr_failed: boom")) =
      some [Segment.mk 0 2 "hello"] :=
  failed_job_display
    [Job.mk "a" "a.mp4" 1 "failed" "tts" 40
      [Segment.mk 0 2 "hello"] (some "asr_failed: boom")]
    (Job.mk "a" "a.mp4" 1 "failed" "tts" 40
      [Segment.mk 0 2 "hello"] (some "asr_failed: boom"))
    "asr_failed: boom" (by decide) rfl rfl (by decide) (by decide)

/-! ## Health observability (C9) -/

/-- The aggregate health payload the frontend polls: an overall status and a
per-service status association list (`useApi.js`, `fetchHealth`). -/
structure Health where
  status : String
  services : List (String × String)
deriving DecidableEq

/-- The client-side state managed by the `useApi` hook: the job list, the
last health payload (none before the first poll) and the upload flag. -/
structure ClientState where
  jobs : List Job
  health : Option Health
  loading : Bool
deriving DecidableEq

/-- `Header.jsx`: one indicator dot per service name, lit exactly when the
health payload reports `status: ok` for that service. -/
def headerIndicators (health : Option Health) : List (String × Bool) :=
  ["asr", "tts", "wav2lip"].map (fun name =>
    (name,
      match health with
      | some h =>
          match h.services.lookup name with
          | some st => st == "ok"
          | none => false
      | none => false))

/-- `useApi.js`, `uploadVideo`: the multipart form sent to `/api/upload`
carries exactly the file and the `use_hd` flag. -/
def uploadForm (filename : String) (useHd : Bool) : List (String × String) :=
  [("file", filename), ("use_hd", if useHd then "true" else "false")]

/-- `useApi.js`, `uploadVideo`: the request is built, the job list is
refreshed from the server and `loading` is cleared; the health field is
neither read nor written. -/
def uploadVideo (st : ClientState) (filename : String) (useHd : Bool)
    (serverJobs : List Job) : List (String × String) × ClientState :=
  (uploadForm filename useHd,
    { st with jobs := serverJobs, loading := false })

/-- C9: upload behaviour is independent of reported health.  For any two
health states over the same job list and loading flag, uploading the same
file produces the same request and the same resulting state apart from the
untouched health field, and health feeds only the header indicators. -/
theorem upload_ignores_health (jobs : List Job) (loading : Bool)
    (h₁ h₂ : Option Health) (filename : String) (useHd : Bool)
    (serverJobs : List Job) :
    (uploadVideo ⟨jobs, h₁, loading⟩ filename useHd serverJobs).1 =
        (uploadVideo ⟨jobs, h₂, loading⟩ filename useHd serverJobs).1 ∧
      (uploadVideo ⟨jobs, h₁, loading⟩ filename useHd serverJobs).2.jobs =
        (uploadVideo ⟨jobs, h₂, loading⟩ filename useHd serverJobs).2.jobs ∧
      (uploadVideo ⟨jobs, h₁, loading⟩ filename useHd serverJobs).2.loading =
        (uploadVideo ⟨jobs, h₂, loading⟩ filename useHd serverJobs).2.loading ∧
      (uploadVideo ⟨jobs, h₁, loading⟩ filename useHd serverJobs).2.health = h₁ ∧
      (uploadVideo ⟨jobs, h₂, loading⟩ filename useHd serverJobs).2.health = h₂ :=
  ⟨rfl, rfl, rfl, rfl, rfl⟩

/-! ## Serialized job shape (C2) -/

/-- A JSON value, enough to state the serialization shape of the gateway. -/
inductive JsonVal where
  | str : String → JsonVal
  | num : ℚ → JsonVal
  | null : JsonVal
  | arr : List JsonVal → JsonVal
  | obj : List (String × JsonVal) → JsonVal

/-- The top-level keys of a JSON object (empty for non-objects). -/
def JsonVal.keys : JsonVal → List String
  | .obj fields => fields.map Prod.fst
  | _ => []

/-- Modelled from the spec: the internal job record of the orchestrator (spec §3);
the backend registry is not under `src/`. -/
structure JobRecord where
  id : String
  filename : String
  sizeBytes : ℕ
  useHighQuality : Bool
  status : String
  currentStage : String
  progressPercent : ℚ
  message : String
  segments : List Segment
  errorReason : Option String
  inputArtifact : Option String
  outputArtifact : Option String
  createdAt : ℚ

/-- Modelled from the spec: each segment is serialized as the object
`start, end, text` (spec §6); the backend serializer is not under `src/`. -/
def serializeSegment (s : Segment) : JsonVal :=
  .obj [("start", .num s.start), ("end", .num s.«end»), ("text", .str s.text)]

/-- Modelled from the spec: the gateway serializes a job record as the stable
JSON object with keys `job_id, filename, file_size_mb, status, current_step,
progress, segments, error` (spec §6); the backend serializer is not under
`src/`. -/
def serializeJob (r : JobRecord) : JsonVal :=
  .obj [("job_id", .str r.id),
        ("filename", .str r.filename),
        ("file_size_mb", .num ((r.sizeBytes : ℚ) / (1024 * 1024))),
        ("status", .str r.status),
        ("current_step", .str r.currentStage),
        ("progress", .num r.progressPercent),
        ("segments", .arr (r.segments.map serializeSegment)),
        ("error", match r.errorReason with | some e => .str e | none => .null)]

/-- The serialized job field names, in serialization order. -/
def jobKeys : List String :=
  ["job_id", "filename", "file_size_mb", "status", "current_step",
   "progress", "segments", "error"]

/-- The serialized segment field names. -/
def segmentKeys : List String := ["start", "end", "text"]

/-- Job fields read by `JobList.jsx`. -/
def jobListReads : List String :=
  ["job_id", "filename", "status", "file_size_mb", "progress"]

/-- Job fields read by `ControlPanel.jsx`. -/
def controlPanelReads : List String :=
  ["job_id", "status", "current_step", "file_size_mb", "error", "segments"]

/-- Job fields read by `Timeline.jsx`. -/
def timelineReads : List String := ["segments", "status"]

/-- Job fields read by `VideoPreview.jsx`. -/
def videoPreviewReads : List String := ["status", "filename", "job_id"]

/-- Job fields read by `ProgressOverlay.jsx`. -/
def progressOverlayReads : List String := ["status", "current_step"]

/-- Job fields read by `App.jsx` and the `useApi` hook. -/
def appReads : List String := ["job_id", "status"]

/-- C2: every serialized job record has exactly the keys `job_id, filename,
file_size_mb, status, current_step, progress, segments, error`, every
serialized segment has exactly the keys `start, end, text`, and every
frontend consumer reads jobs only through fields of that shape. -/
theorem serialized_job_shape :
    (∀ r : JobRecord, (serializeJob r).keys = jobKeys) ∧
      (∀ s : Segment, (serializeSegment s).keys = segmentKeys) ∧
      (∀ k ∈ jobListReads, k ∈ jobKeys) ∧
      (∀ k ∈ controlPanelReads, k ∈ jobKeys) ∧
      (∀ k ∈ timelineReads, k ∈ jobKeys) ∧
      (∀ k ∈ videoPreviewReads, k ∈ jobKeys) ∧
      (∀ k ∈ progressOverlayReads, k ∈ jobKeys) ∧
      (∀ k ∈ appReads, k ∈ jobKeys) :=
  ⟨fun _ => rfl, fun _ => rfl, by decide, by decide, by decide, by decide,
    by decide, by decide⟩

/-- Witness for C2: a concrete record serializes to the eight keys, and the
`job_id` field read by `JobList` is one of them. -/
theorem serialized_job_shape_witness :
    (serializeJob
        ⟨"a", "a.mp4", 1048576, false, "queued", "asr", 0, "", [],
          none, none, none, 0⟩).keys = jobKeys ∧
      "job_id" ∈ jobKeys :=
  ⟨serialized_job_shape.1
      ⟨"a", "a.mp4", 1048576, false, "queued", "asr", 0, "", [],
        none, none, none, 0⟩,
    serialized_job_shape.2.2.1 "job_id" (by decide)⟩

/-! ## Progress subscription (C3) -/

/-- Modelled from the spec: the broadcaster snapshot of the current state of
a job, as the progress event `stage, progress, message` (spec §4.3, §6); the
broadcaster is backend code not under `src/`. -/
def snapshotOf (r : JobRecord) : ProgressEvent :=
  ⟨r.currentStage, r.progressPercent, r.message⟩

/-- Modelled from the spec: on subscribe the broadcaster first delivers the
current snapshot of the job, then the live events (spec §4.3); the broadcaster is
backend code not under `src/`. -/
def subscribeStream (r : JobRecord) (live : List ProgressEvent) :
    List ProgressEvent :=
  snapshotOf r :: live

/-- C3: the first event of every subscription is the snapshot of the state of
the job at subscribe time — its stage, percent and message are the current
field values of the record, whatever they are, not the initial queued ones — and the live
events follow only after that snapshot. -/
theorem subscribe_first_event_is_snapshot (r : JobRecord)
    (live : List ProgressEvent) :
    (subscribeStream r live).head? =
        some ⟨r.currentStage, r.progressPercent, r.message⟩ ∧
      (subscribeStream r live).tail = live ∧
      ∀ i : ℕ, (subscribeStream r live)[i + 1]? = live[i]? :=
  ⟨rfl, rfl, fun i => by simp [subscribeStream]⟩

end DubStudio
